import Mathlib

/-!
Verification of the ALVR connection lifecycle core (server `connection.rs`,
client `lib.rs` and `storage.rs`) against its natural-language specification.

Rust machine floats that only ever undergo exact arithmetic in the claims at
hand (division by the power of two 32, absolute differences used for
comparisons, copies) are embedded as rationals; machine integers as `Nat`/`Int`.
Fallible Rust code (`Result`, the `?` operator) is embedded as `Except String`.
Stateful steps are embedded as explicit state-passing functions.
-/

namespace ALVR

/-- Embedding of `fn align32(value: f32) -> u32 { ((value / 32.).floor() * 32.) as u32 }`
from `server/src/connection.rs`.  The float-to-integer `as u32` cast
saturates at both ends: negatives go to 0 (reproduced by `Int.toNat`) and
values at or above `2^32` go to `u32::MAX = 2^32 - 1` (reproduced by the
`min`).  Division and multiplication by the power of two 32 are exact in
`f32`, so the rational arithmetic is faithful. -/
def align32 (value : ℚ) : ℕ :=
  min (⌊value / 32⌋ * 32).toNat (2 ^ 32 - 1)

/-- Embedding of `FrameSize` from `alvr_session` as used by `client_handshake`:
either a scale factor applied to the headset recommendation, or an absolute
total width/height. -/
inductive FrameSize where
  | Scale (scale : ℚ)
  | Absolute (width : ℕ) (height : ℕ)
deriving DecidableEq

/-- The per-eye dimensions computed in `client_handshake` before alignment:
`Scale` multiplies the recommended eye size, `Absolute` halves the total width
(`width as f32 / 2_f32`) and keeps the height. -/
def eyeDims (renderResolution : FrameSize) (recommendedEyeWidth recommendedEyeHeight : ℕ) :
    ℚ × ℚ :=
  match renderResolution with
  | FrameSize.Scale scale =>
      ((recommendedEyeWidth : ℚ) * scale, (recommendedEyeHeight : ℚ) * scale)
  | FrameSize.Absolute width height => ((width : ℚ) / 2, (height : ℚ))

/-- `video_eye_width` in `client_handshake`: scaled recommendation, aligned
down to a 32-pixel multiple. -/
def videoEyeWidth (renderResolution : FrameSize) (recW recH : ℕ) : ℕ :=
  align32 (eyeDims renderResolution recW recH).1

/-- `video_eye_height` in `client_handshake`. -/
def videoEyeHeight (renderResolution : FrameSize) (recW recH : ℕ) : ℕ :=
  align32 (eyeDims renderResolution recW recH).2

/-- The refresh-rate selection loop of `client_handshake`:
`best_match` starts at `0`, `min_diff` starts at `f32::MAX` (embedded as
`none`, meaning no candidate seen yet), and each rate replaces the running
best exactly when its distance to the preferred fps is strictly smaller. -/
def negotiateFpsAux (preferred : ℚ) (bestMatch : ℚ) (minDiff : Option ℚ) :
    List ℚ → ℚ
  | [] => bestMatch
  | rr :: rest =>
      match minDiff with
      | none => negotiateFpsAux preferred rr (some |rr - preferred|) rest
      | some d =>
          if |rr - preferred| < d then
            negotiateFpsAux preferred rr (some |rr - preferred|) rest
          else
            negotiateFpsAux preferred bestMatch (some d) rest

/-- The negotiated `fps` of `client_handshake` (lines 156-167). -/
def negotiateFps (availableRefreshRates : List ℚ) (preferredFps : ℚ) : ℚ :=
  negotiateFpsAux preferredFps 0 none availableRefreshRates

/-- The warning condition of `client_handshake` (lines 169-174): warn exactly
when the preferred fps is not contained in the advertised list. -/
def fpsWarningEmitted (availableRefreshRates : List ℚ) (preferredFps : ℚ) : Bool :=
  !(availableRefreshRates.contains preferredFps)

/-- Embedding of `HeadsetInfoPacket` as constructed by `alvr_initialize` in
`client_core/src/lib.rs`. -/
structure HeadsetInfoPacket where
  recommended_eye_width : ℕ
  recommended_eye_height : ℕ
  available_refresh_rates : List ℚ
  preferred_refresh_rate : ℚ
  microphone_sample_rate : ℕ
  reserved : String
deriving DecidableEq

/-- `alvr_initialize` (client `lib.rs`, lines 222-239): the advertised
preferred refresh rate is `available_refresh_rates.last().cloned().unwrap_or(60_f32)`. -/
def alvrInitializeHeadsetInfo (recommendedViewWidth recommendedViewHeight : ℕ)
    (refreshRates : List ℚ) (microphoneSampleRate : ℕ) (version : String) :
    HeadsetInfoPacket :=
  { recommended_eye_width := recommendedViewWidth
    recommended_eye_height := recommendedViewHeight
    available_refresh_rates := refreshRates
    preferred_refresh_rate := (refreshRates.getLast?).getD 60
    microphone_sample_rate := microphoneSampleRate
    reserved := version }

/-- Embedding of `OpenvrConfig` (from `alvr_session`) exactly as populated by
`client_handshake` (server `connection.rs`, lines 350-425).  `f32` fields are
embedded as rationals, unsigned integers as `Nat`, signed as `Int`, fixed
3-arrays as triples. -/
structure OpenvrConfig where
  universe_id : ℕ
  headset_serial_number : String
  headset_tracking_system_name : String
  headset_model_number : String
  headset_driver_version : String
  headset_manufacturer_name : String
  headset_render_model_name : String
  headset_registered_device_type : String
  eye_resolution_width : ℕ
  eye_resolution_height : ℕ
  target_eye_resolution_width : ℕ
  target_eye_resolution_height : ℕ
  seconds_from_vsync_to_photons : ℚ
  force_3dof : Bool
  tracking_ref_only : Bool
  enable_vive_tracker_proxy : Bool
  aggressive_keyframe_resend : Bool
  adapter_index : ℕ
  codec : ℕ
  refresh_rate : ℕ
  use_10bit_encoder : Bool
  force_sw_encoding : Bool
  sw_thread_count : ℕ
  encode_bitrate_mbs : ℕ
  enable_adaptive_bitrate : Bool
  bitrate_maximum : ℕ
  latency_target : ℕ
  latency_use_frametime : Bool
  latency_target_maximum : ℕ
  latency_target_offset : ℤ
  latency_threshold : ℕ
  bitrate_up_rate : ℕ
  bitrate_down_rate : ℕ
  bitrate_light_load_threshold : ℚ
  position_offset : ℚ × ℚ × ℚ
  controllers_enabled : Bool
  steamvr_hmd_prediction_multiplier : ℚ
  steamvr_ctrl_prediction_multiplier : ℚ
  controllers_mode_idx : ℤ
  controllers_tracking_system_name : String
  controllers_manufacturer_name : String
  controllers_model_number : String
  render_model_name_left_controller : String
  render_model_name_right_controller : String
  controllers_serial_number : String
  controllers_type_left : String
  controllers_type_right : String
  controllers_registered_device_type : String
  controllers_input_profile_path : String
  linear_velocity_cutoff : ℚ
  angular_velocity_cutoff : ℚ
  position_offset_left : ℚ × ℚ × ℚ
  rotation_offset_left : ℚ × ℚ × ℚ
  haptics_intensity : ℚ
  haptics_amplitude_curve : ℚ
  haptics_min_duration : ℚ
  haptics_low_duration_amplitude_multiplier : ℚ
  haptics_low_duration_range : ℚ
  use_headset_tracking_system : Bool
  enable_foveated_rendering : Bool
  foveation_center_size_x : ℚ
  foveation_center_size_y : ℚ
  foveation_center_shift_x : ℚ
  foveation_center_shift_y : ℚ
  foveation_edge_ratio_x : ℚ
  foveation_edge_ratio_y : ℚ
  enable_color_correction : Bool
  brightness : ℚ
  contrast : ℚ
  saturation : ℚ
  gamma : ℚ
  sharpening : ℚ
  enable_fec : Bool
  linux_async_reprojection : Bool
deriving DecidableEq

/-- Server control packets relevant to the handshake and supervisor
(`ServerControlPacket` variants used in `connection.rs`). -/
inductive ServerControlPacket where
  | StartStream
  | Restarting
  | KeepAlive
deriving DecidableEq

/-- Embedding of the server's `ConnectionInfo` (connection.rs lines 91-97);
the two socket halves are represented by the identity of the peer they are
bound to. -/
structure ConnectionInfo where
  client_ip : ℕ
  version : Option String
  microphone_sample_rate : ℕ
deriving DecidableEq

/-- Outcome of the tail of `client_handshake`: either the task suspends
forever (`future::pending::<()>().await`) or it returns a `ConnectionInfo`. -/
inductive HandshakeOutcome where
  | suspended
  | returned (info : ConnectionInfo)
deriving DecidableEq

/-- Observable effects of the config-comparison step of `client_handshake`:
the `openvr_config` stored in the session afterwards, the control packets sent
during the step, and whether `notify_restart_driver` ran. -/
structure ConfigStepEffects where
  persisted : OpenvrConfig
  sent : List ServerControlPacket
  restartTriggered : Bool
deriving DecidableEq

/-- Embedding of `client_handshake` lines 427-447: compare the freshly built
`OpenvrConfig` against the one persisted in the session; on a difference
persist the new one, send `Restarting` (send failures ignored via `.ok()`),
trigger a driver restart and suspend forever; otherwise return the
`ConnectionInfo` unchanged. -/
def configCompareStep (sessionConfig newOpenvrConfig : OpenvrConfig)
    (info : ConnectionInfo) : ConfigStepEffects × HandshakeOutcome :=
  if sessionConfig ≠ newOpenvrConfig then
    ({ persisted := newOpenvrConfig
       sent := [ServerControlPacket.Restarting]
       restartTriggered := true },
     HandshakeOutcome.suspended)
  else
    ({ persisted := sessionConfig
       sent := []
       restartTriggered := false },
     HandshakeOutcome.returned info)

/-- Button values carried by control packets (`alvr_events::ButtonValue`). -/
inductive ButtonValue where
  | Binary (value : Bool)
  | Scalar (value : ℚ)
deriving DecidableEq

/-- Client control packets as matched by the server (`ClientControlPacket`
variants used in `connection.rs`).  Payloads not inspected by the claims are
kept only to the extent the server reads them. -/
inductive ClientControlPacket where
  | StreamReady
  | PlayspaceSync (x y : ℚ)
  | RequestIdr
  | VideoErrorReport
  | ViewsConfig (ipd_m : ℚ)
  | Battery (device_id : ℕ) (gauge_value : ℚ) (is_plugged : Bool)
  | Button (path_id : ℕ) (value : ButtonValue)
  | Reserved (payload : String)
deriving DecidableEq

/-- Observable result of the stream-acknowledgement phase of
`connection_pipeline` (lines 542-556): `StartStream` is sent unconditionally,
then the next received control packet decides whether the pipeline proceeds
to stream-socket setup or returns an error first. -/
structure StreamAckResult where
  sentStartStream : Bool
  proceededToStreamSetup : Bool
  result : Except String Unit

/-- Embedding of `connection_pipeline` lines 542-556: send `StartStream`,
receive one packet; `StreamReady` proceeds, any other packet or a receive
error returns an error before `StreamSocketBuilder::connect_to_client` runs. -/
def streamAckPhase (recvResult : Except String ClientControlPacket) : StreamAckResult :=
  match recvResult with
  | Except.ok ClientControlPacket.StreamReady =>
      { sentStartStream := true
        proceededToStreamSetup := true
        result := Except.ok () }
  | Except.ok _ =>
      { sentStartStream := true
        proceededToStreamSetup := false
        result := Except.error "Got unexpected packet waiting for stream ack" }
  | Except.error e =>
      { sentStartStream := true
        proceededToStreamSetup := false
        result := Except.error ("Error while waiting for stream ack: " ++ e) }

/-- A client registry entry (`ClientConnectionDesc` in the server data
manager): display name, trust flag, manual IPs. -/
structure ClientConnectionDesc where
  display_name : String
  trusted : Bool
  manual_ips : List ℕ
deriving DecidableEq

/-- The client registry: hostname-keyed association list with unique keys. -/
abbrev ClientList := List (String × ClientConnectionDesc)

/-- Lookup of a hostname in the registry (`client_list().get(&hostname)`). -/
def clientListGet (list : ClientList) (hostname : String) : Option ClientConnectionDesc :=
  match list with
  | [] => none
  | (h, desc) :: rest => if h = hostname then some desc else clientListGet rest hostname

/-- Modelled from the spec: `update_client_list` with
`ClientListAction::AddIfMissing` lives in the server data manager, which is
not part of the provided sources; per the spec, a broadcast from an unknown
hostname adds a registry entry with the given display name and
`trusted = false`, and an existing entry is left unchanged. -/
def updateClientListAddIfMissing (list : ClientList) (hostname : String)
    (display_name : String) : ClientList :=
  match clientListGet list hostname with
  | some _ => list
  | none => list ++ [(hostname, { display_name := display_name
                                  trusted := false
                                  manual_ips := [] })]

/-- The handshake broadcast as consumed by `client_discovery`. -/
structure HandshakePacket where
  hostname : String
  device_name : String
deriving DecidableEq

/-- `ClientId` from `connection.rs` (lines 56-60). -/
structure ClientId where
  hostname : String
  ip : ℕ
deriving DecidableEq

/-- Embedding of the per-broadcast body of `client_discovery` (lines 62-89):
update the registry with `AddIfMissing`, then resolve to a `ClientId` exactly
when the (now present) entry is trusted or `auto_trust_clients` is set.
Returns the updated registry and the resolution, `none` meaning the discovery
loop keeps listening. -/
def clientDiscoveryStep (list : ClientList) (auto_trust_clients : Bool)
    (packet : HandshakePacket) (ip : ℕ) : ClientList × Option ClientId :=
  let list' := updateClientListAddIfMissing list packet.hostname packet.device_name
  let accept :=
    match clientListGet list' packet.hostname with
    | some connection_desc => connection_desc.trusted || auto_trust_clients
    | none => false
  (list', if accept then some { hostname := packet.hostname, ip := ip } else none)

/-- Hexadecimal digits of `n`, most significant first, without padding
(`0` renders as "0"), lowercase as in Rust's `{:x}`. -/
def hexDigits (n : ℕ) : List Char :=
  Nat.toDigits 16 n

/-- Pad a string on the left with spaces up to the given width (Rust's
default right-alignment for formatted integers). -/
def padLeftSpaces (width : ℕ) (s : String) : String :=
  String.mk (List.replicate (width - s.length) ' ') ++ s

/-- Rust's `format!("{:#16x}", n)`: `0x` prefix (alternate form), lowercase
hex digits, right-aligned in a 16-character field padded with spaces. -/
def rustFormatAltHex16 (n : ℕ) : String :=
  padLeftSpaces 16 ("0x" ++ String.mk (hexDigits n))

/-- Zero-padded 16-digit lowercase hexadecimal, Rust's `format!("{:016x}", n)`;
this is the rendering the spec claims for unknown button ids, stated here as
a second definition from the spec's words for comparison with the source. -/
def specZeroPadHex16 (n : ℕ) : String :=
  String.mk (List.replicate (16 - (hexDigits n).length) '0' ++ hexDigits n)

/-- The unknown-id rendering the spec claims: "Unknown (0x{:016x})". -/
def specClaimedUnknownRender (path_id : ℕ) : String :=
  "Unknown (0x" ++ specZeroPadHex16 path_id ++ ")"

/-- The path string put into the button log event by `control_loop`
(connection.rs lines 969-975): the mapped path when `path_id` is in
`BUTTON_PATH_FROM_ID`, else `format!("Unknown (ID: {:#16x})", path_id)`.
The map itself lives in `crate::buttons`, outside the provided sources, so it
is passed as an association list argument. -/
def buttonLogPath (buttonPathFromId : List (ℕ × String)) (path_id : ℕ) : String :=
  match buttonPathFromId.lookup path_id with
  | some path => path
  | none => "Unknown (ID: " ++ rustFormatAltHex16 path_id ++ ")"

/-- The button log event payload (`alvr_events::ButtonEvent`). -/
structure ButtonEvent where
  path : String
  value : ButtonValue
deriving DecidableEq

/-- Observable effects of the `Button` arm of `control_loop` (lines 967-991):
the optional log event, and the value pushed to the driver via `SetButton`. -/
structure ButtonStepEffects where
  loggedEvent : Option ButtonEvent
  driverPush : ℕ × ButtonValue
deriving DecidableEq

/-- Embedding of the `Button { path_id, value }` arm of `control_loop`:
when `log_button_presses` is set, emit a `ButtonEvent` with the resolved or
unknown-rendered path; in every case convert the value and call `SetButton`. -/
def controlLoopButtonStep (buttonPathFromId : List (ℕ × String))
    (log_button_presses : Bool) (path_id : ℕ) (value : ButtonValue) : ButtonStepEffects :=
  { loggedEvent :=
      if log_button_presses then
        some { path := buttonLogPath buttonPathFromId path_id, value := value }
      else
        none
    driverPush := (path_id, value) }

/-- Result of one iteration of the body of `game_audio_loop`
(connection.rs lines 597-661): the Rust `loop` either runs `continue` /
falls through to the next iteration, or would exit the loop with a value. -/
inductive LoopBodyResult where
  | continueLoop
  | exitLoop (result : Except String Unit)

/-- Embedding of a single iteration of the non-Windows body of
`game_audio_loop`: a failed `AudioDevice::new` warns, sleeps
`CONTROL_CONNECT_RETRY_PAUSE` and continues; a finished
`record_audio_loop` — with `Ok` or `Err` — falls through to the next
iteration.  No path exits the loop. -/
def gameAudioLoopBody (deviceOpen : Except String Unit)
    (recordAudioResult : Except String Unit) : LoopBodyResult :=
  match deviceOpen with
  | Except.error _ => LoopBodyResult.continueLoop
  | Except.ok _ =>
      match recordAudioResult with
      | Except.ok _ => LoopBodyResult.continueLoop
      | Except.error _ => LoopBodyResult.continueLoop

/-- Run `game_audio_loop` against a finite schedule of environment responses
(one device-open result and one record-loop result per iteration); `none`
means the loop is still running after consuming the whole schedule. -/
def gameAudioLoopRun : List (Except String Unit × Except String Unit) →
    Option (Except String Unit)
  | [] => none
  | (deviceOpen, recordResult) :: rest =>
      match gameAudioLoopBody deviceOpen recordResult with
      | LoopBodyResult.exitLoop r => some r
      | LoopBodyResult.continueLoop => gameAudioLoopRun rest

/-- Embedding of the game-audio block of `client_handshake`
(connection.rs lines 181-204, Linux path without the same-device check):
with game audio enabled, a failure of `AudioDevice::new` for the output
device, of the microphone `AudioDevice::new` (when the microphone is
enabled), or of `input_sample_rate()` propagates out of `client_handshake`
through `?`; with game audio disabled the sample rate is 0. -/
def handshakeGameAudioSampleRate (gameAudioEnabled microphoneEnabled : Bool)
    (gameDeviceOpen : Except String Unit) (micDeviceOpen : Except String Unit)
    (inputSampleRate : Except String ℕ) : Except String ℕ :=
  if gameAudioEnabled then
    match gameDeviceOpen with
    | Except.error e => Except.error e
    | Except.ok _ =>
        if microphoneEnabled then
          match micDeviceOpen with
          | Except.error e => Except.error e
          | Except.ok _ => inputSampleRate
        else
          inputSampleRate
  else
    Except.ok 0

/-- How `connection_pipeline` (lines 517-524) consumes the handshake result:
an `Err` is logged as a warning and the pipeline returns before any
stream-setup step; an `Ok` carries the `ConnectionInfo` into streaming. -/
inductive PipelineOutcome where
  | abortedBeforeStreaming
  | streaming (info : ConnectionInfo)
deriving DecidableEq

/-- Embedding of the `Either::Right` arms of `connection_pipeline`
(lines 517-524). -/
def pipelineHandshakeResult (handshake : Except String ConnectionInfo) :
    PipelineOutcome :=
  match handshake with
  | Except.error _ => PipelineOutcome.abortedBeforeStreaming
  | Except.ok info => PipelineOutcome.streaming info

/-- Modelled from the spec: the client `StatisticsManager`
(`client_core/src/statistics.rs`, not among the provided sources) keeps a
bounded ring of per-frame samples; `average_total_pipeline_latency` is the
rolling mean of the recorded total-pipeline-latency samples (nanoseconds)
and returns zero with zero samples. -/
structure StatisticsManager where
  totalPipelineLatencySamples : List ℕ
  historySize : ℕ
deriving DecidableEq

/-- Modelled from the spec: `StatisticsManager::new` starts with no samples. -/
def StatisticsManager.new (historySize : ℕ) : StatisticsManager :=
  { totalPipelineLatencySamples := [], historySize := historySize }

/-- Modelled from the spec: rolling mean of the recorded samples; zero when
none have been recorded. -/
def StatisticsManager.averageTotalPipelineLatencyNs (m : StatisticsManager) : ℕ :=
  if m.totalPipelineLatencySamples = [] then 0
  else m.totalPipelineLatencySamples.sum / m.totalPipelineLatencySamples.length

/-- Embedding of `alvr_get_prediction_offset_ns` (client `lib.rs`
lines 492-499): the average total pipeline latency when a statistics manager
is installed in the `STATISTICS_MANAGER` slot, 0 otherwise. -/
def alvrGetPredictionOffsetNs (statisticsManagerSlot : Option StatisticsManager) : ℕ :=
  match statisticsManagerSlot with
  | some stats => stats.averageTotalPipelineLatencyNs
  | none => 0

/-- Embedding of the client `Config` struct (`client_core/src/storage.rs`
lines 22-26). -/
structure Config where
  protocol_id : ℕ
  hostname : String
deriving DecidableEq

/-- A `u64` protocol id fits the machine width. -/
def Config.WellFormed (c : Config) : Prop :=
  c.protocol_id < 2 ^ 64

/-- JSON values, as far as the client `Config` serialization needs them. -/
inductive Json where
  | num (n : ℕ)
  | str (s : String)
  | obj (fields : List (String × Json))

/-- First field with the given key in a JSON object body. -/
def jsonLookup (fields : List (String × Json)) (key : String) : Option Json :=
  match fields with
  | [] => none
  | (k, v) :: rest => if k = key then some v else jsonLookup rest key

/-- Modelled from the spec: serde JSON serialization of `Config`
(`#[derive(Serialize)]` expansion, not among the provided sources), embedded
at the JSON-tree level since the spec declares the concrete wire format out
of scope: a struct serializes to an object with one field per struct field,
in declaration order. -/
def serializeConfig (c : Config) : Json :=
  Json.obj [("protocol_id", Json.num c.protocol_id), ("hostname", Json.str c.hostname)]

/-- Modelled from the spec: serde JSON deserialization of `Config`
(`#[derive(Deserialize)]` expansion): require an object carrying a numeric
`protocol_id` and a string `hostname`. -/
def deserializeConfig (j : Json) : Option Config :=
  match j with
  | Json.obj fields =>
      match jsonLookup fields "protocol_id", jsonLookup fields "hostname" with
      | some (Json.num p), some (Json.str h) => some { protocol_id := p, hostname := h }
      | _, _ => none
  | _ => none

/-- What `Config::load` (storage.rs lines 46-63) returns, plus whether it
fell back to (and stored) a fresh default config.  The config file contents
are passed as `none` when the file is unreadable; the fresh default (whose
hostname is random) is passed in as `freshDefault`. -/
def configLoad (fileContents : Option Json) (freshDefault : Config) : Config × Bool :=
  match fileContents with
  | some j =>
      match deserializeConfig j with
      | some config => (config, false)
      | none => (freshDefault, true)
  | none => (freshDefault, true)

/-- A concrete `OpenvrConfig` used to evaluate the handshake config step. -/
def sampleOpenvrConfig : OpenvrConfig :=
  { universe_id := 2
    headset_serial_number := "1WMGH000XX0000"
    headset_tracking_system_name := "oculus"
    headset_model_number := "Miramar"
    headset_driver_version := "1.55.0"
    headset_manufacturer_name := "Oculus"
    headset_render_model_name := "generic_hmd"
    headset_registered_device_type := "oculus/1WMGH000XX0000"
    eye_resolution_width := 1824
    eye_resolution_height := 1920
    target_eye_resolution_width := 1824
    target_eye_resolution_height := 1920
    seconds_from_vsync_to_photons := 0
    force_3dof := false
    tracking_ref_only := false
    enable_vive_tracker_proxy := false
    aggressive_keyframe_resend := false
    adapter_index := 0
    codec := 1
    refresh_rate := 72
    use_10bit_encoder := false
    force_sw_encoding := false
    sw_thread_count := 0
    encode_bitrate_mbs := 30
    enable_adaptive_bitrate := true
    bitrate_maximum := 200
    latency_target := 12000
    latency_use_frametime := false
    latency_target_maximum := 30000
    latency_target_offset := 0
    latency_threshold := 3000
    bitrate_up_rate := 1
    bitrate_down_rate := 3
    bitrate_light_load_threshold := 1
    position_offset := (0, 0, 0)
    controllers_enabled := true
    steamvr_hmd_prediction_multiplier := 1
    steamvr_ctrl_prediction_multiplier := 1
    controllers_mode_idx := 7
    controllers_tracking_system_name := "oculus"
    controllers_manufacturer_name := "Oculus"
    controllers_model_number := "Miramar"
    render_model_name_left_controller := "oculus_quest2_controller_left"
    render_model_name_right_controller := "oculus_quest2_controller_right"
    controllers_serial_number := "1WMGH000XX0000_Controller"
    controllers_type_left := "oculus_touch"
    controllers_type_right := "oculus_touch"
    controllers_registered_device_type := "oculus_touch"
    controllers_input_profile_path := "input/touch_profile.json"
    linear_velocity_cutoff := 1
    angular_velocity_cutoff := 10
    position_offset_left := (0, 0, 0)
    rotation_offset_left := (20, 0, 0)
    haptics_intensity := 1
    haptics_amplitude_curve := 2
    haptics_min_duration := 1
    haptics_low_duration_amplitude_multiplier := 2
    haptics_low_duration_range := 1
    use_headset_tracking_system := false
    enable_foveated_rendering := true
    foveation_center_size_x := 1
    foveation_center_size_y := 1
    foveation_center_shift_x := 1
    foveation_center_shift_y := 0
    foveation_edge_ratio_x := 4
    foveation_edge_ratio_y := 5
    enable_color_correction := false
    brightness := 0
    contrast := 0
    saturation := 0
    gamma := 1
    sharpening := 0
    enable_fec := true
    linux_async_reprojection := false }

/-- `sampleOpenvrConfig` with a different encoder bitrate (the spec's
"config changed" reconnect scenario). -/
def sampleOpenvrConfigChanged : OpenvrConfig :=
  { sampleOpenvrConfig with encode_bitrate_mbs := 40 }

/-- A concrete `ConnectionInfo` for evaluating handshake outcomes. -/
def sampleConnectionInfo : ConnectionInfo :=
  { client_ip := 3232235777
    version := some "18.2.3"
    microphone_sample_rate := 48000 }

theorem align32_int_cast (x : ℚ) (hx : 0 ≤ x) (hlt : x < 2 ^ 32) :
    (align32 x : ℤ) = ⌊x / 32⌋ * 32 := by
  have h0 : (0 : ℤ) ≤ ⌊x / 32⌋ := Int.floor_nonneg.mpr (div_nonneg hx (by norm_num))
  have hup : ⌊x / 32⌋ < 2 ^ 27 := by
    have hq : x / 32 < 2 ^ 27 := by
      rw [div_lt_iff₀ (by norm_num : (0 : ℚ) < 32)]
      calc x < 2 ^ 32 := hlt
        _ = 2 ^ 27 * 32 := by norm_num
    exact Int.floor_lt.mpr (by exact_mod_cast hq)
  have hle : (⌊x / 32⌋ * 32).toNat ≤ 2 ^ 32 - 1 := by omega
  have hnn : (0 : ℤ) ≤ ⌊x / 32⌋ * 32 := mul_nonneg h0 (by norm_num)
  unfold align32
  rw [min_eq_left hle]
  exact Int.toNat_of_nonneg hnn

/-- C3 counterexample: the `as u32` cast in `align32` saturates, so at the
scaled dimension `x = 2^32` the program returns `u32::MAX = 4294967295`,
which is not a multiple of 32, even though `2^32` itself is a multiple of 32
not exceeding `x` — the result is neither 32-aligned nor the largest
32-multiple at most `x`. -/
theorem align32_saturation_counterexample :
    align32 4294967296 = 4294967295 ∧
    ¬ 32 ∣ align32 4294967296 ∧
    align32 4294967296 % 32 ≠ 0 ∧
    (32 : ℕ) ∣ 4294967296 ∧
    ((4294967296 : ℕ) : ℚ) ≤ 4294967296 ∧
    align32 4294967296 < 4294967296 := by
  have h : align32 4294967296 = 4294967295 := by
    norm_num [align32]
  refine ⟨h, ?_, ?_, by norm_num, by norm_num, ?_⟩
  · rw [h]; decide
  · rw [h]; decide
  · rw [h]; norm_num

/-- C3 (amended): for every non-negative scaled eye dimension `x` below
`2^32` (where the `as u32` cast does not saturate upward), `align32 x` is the
largest multiple of 32 that is at most `x` (it divides by 32 with remainder 0,
it is at most `x`, and every multiple of 32 at most `x` is at most it); in
particular the recommended eye width 1832 at scale 1.0 is negotiated to 1824. -/
theorem align32_greatest_multiple_spec (x : ℚ) (hx : 0 ≤ x) (hlt : x < 2 ^ 32) :
    32 ∣ align32 x ∧ align32 x % 32 = 0 ∧ (align32 x : ℚ) ≤ x ∧
      (∀ n : ℕ, 32 ∣ n → (n : ℚ) ≤ x → n ≤ align32 x) ∧
      videoEyeWidth (FrameSize.Scale 1) 1832 1920 = 1824 := by
  have hcast := align32_int_cast x hx hlt
  have hdvd : 32 ∣ align32 x := by
    have h1 : (32 : ℤ) ∣ (align32 x : ℤ) := ⟨⌊x / 32⌋, by rw [hcast]; ring⟩
    exact_mod_cast h1
  refine ⟨hdvd, Nat.mod_eq_zero_of_dvd hdvd, ?_, ?_, ?_⟩
  · have h1 : (⌊x / 32⌋ : ℚ) ≤ x / 32 := Int.floor_le _
    have h2 : (⌊x / 32⌋ : ℚ) * 32 ≤ x / 32 * 32 :=
      mul_le_mul_of_nonneg_right h1 (by norm_num)
    have h3 : x / 32 * 32 = x := by field_simp
    calc (align32 x : ℚ) = ((align32 x : ℤ) : ℚ) := by push_cast; ring
      _ = (⌊x / 32⌋ : ℚ) * 32 := by rw [hcast]; push_cast; ring
      _ ≤ x := by rw [h3] at h2; exact h2
  · intro n hn hle
    obtain ⟨m, rfl⟩ := hn
    have hm : (m : ℚ) ≤ x / 32 := by
      rw [le_div_iff₀ (by norm_num : (0:ℚ) < 32)]
      calc (m : ℚ) * 32 = ((32 * m : ℕ) : ℚ) := by push_cast; ring
        _ ≤ x := hle
    have hfl : (m : ℤ) ≤ ⌊x / 32⌋ := Int.le_floor.mpr (by exact_mod_cast hm)
    omega
  · norm_num [videoEyeWidth, eyeDims, align32]; rfl

/-- Witness for C3 (amended) at the concrete input `x = 1832`. -/
theorem align32_greatest_multiple_witness :
    ((0 : ℚ) ≤ 1832 ∧ (1832 : ℚ) < 2 ^ 32) ∧
      (32 ∣ align32 1832 ∧ align32 1832 % 32 = 0 ∧ (align32 1832 : ℚ) ≤ 1832 ∧
        (∀ n : ℕ, 32 ∣ n → (n : ℚ) ≤ 1832 → n ≤ align32 1832) ∧
        videoEyeWidth (FrameSize.Scale 1) 1832 1920 = 1824) :=
  ⟨⟨by norm_num, by norm_num⟩,
   align32_greatest_multiple_spec 1832 (by norm_num) (by norm_num)⟩

/-- C4: after the handshake, the supervisor sends `StartStream`; it proceeds
to stream setup exactly on a received `StreamReady`, and returns an error
without building the stream socket on any other packet or receive error. -/
theorem streamAckPhase_spec (recvResult : Except String ClientControlPacket) :
    (streamAckPhase recvResult).sentStartStream = true ∧
    (recvResult = Except.ok ClientControlPacket.StreamReady →
      (streamAckPhase recvResult).proceededToStreamSetup = true ∧
      (streamAckPhase recvResult).result = Except.ok ()) ∧
    (recvResult ≠ Except.ok ClientControlPacket.StreamReady →
      (streamAckPhase recvResult).proceededToStreamSetup = false ∧
      ∃ e, (streamAckPhase recvResult).result = Except.error e) := by
  cases recvResult with
  | error e => exact ⟨rfl, by intro h; exact absurd h (by simp), fun _ => ⟨rfl, ⟨_, rfl⟩⟩⟩
  | ok p => cases p <;> simp [streamAckPhase]

/-- Witness for C4: `StreamReady` proceeds, `RequestIdr` aborts. -/
theorem streamAckPhase_witness :
    (streamAckPhase (Except.ok ClientControlPacket.StreamReady)).proceededToStreamSetup = true ∧
    (streamAckPhase (Except.ok ClientControlPacket.RequestIdr)).proceededToStreamSetup = false :=
  ⟨((streamAckPhase_spec (Except.ok ClientControlPacket.StreamReady)).2.1 rfl).1,
   ((streamAckPhase_spec (Except.ok ClientControlPacket.RequestIdr)).2.2 (by simp)).1⟩

/-- C8: `alvr_get_prediction_offset_ns` returns 0 when no statistics manager
is installed, and when one is installed with no recorded frames (in
particular a freshly constructed one). -/
theorem alvrGetPredictionOffsetNs_spec (statisticsManagerSlot : Option StatisticsManager) :
    (statisticsManagerSlot = none → alvrGetPredictionOffsetNs statisticsManagerSlot = 0) ∧
    (∀ m, statisticsManagerSlot = some m → m.totalPipelineLatencySamples = [] →
      alvrGetPredictionOffsetNs statisticsManagerSlot = 0) ∧
    (∀ historySize, alvrGetPredictionOffsetNs (some (StatisticsManager.new historySize)) = 0) := by
  refine ⟨?_, ?_, ?_⟩
  · intro h; subst h; rfl
  · intro m h hm
    subst h
    simp [alvrGetPredictionOffsetNs, StatisticsManager.averageTotalPipelineLatencyNs, hm]
  · intro historySize
    simp [alvrGetPredictionOffsetNs, StatisticsManager.averageTotalPipelineLatencyNs,
      StatisticsManager.new]

/-- Witness for C8 at the empty slot and a fresh manager. -/
theorem alvrGetPredictionOffsetNs_witness :
    alvrGetPredictionOffsetNs none = 0 ∧
    alvrGetPredictionOffsetNs (some (StatisticsManager.new 256)) = 0 :=
  ⟨(alvrGetPredictionOffsetNs_spec none).1 rfl,
   (alvrGetPredictionOffsetNs_spec (some (StatisticsManager.new 256))).2.2 256⟩

/-- C9: serializing a well-formed client `Config` and deserializing it gives
the config back, so `Config::load` on a file holding a stored config returns
that config (no fresh default is generated) and in particular its hostname. -/
theorem configRoundTrip_spec (c : Config) (_hwf : c.WellFormed) (freshDefault : Config) :
    deserializeConfig (serializeConfig c) = some c ∧
    configLoad (some (serializeConfig c)) freshDefault = (c, false) ∧
    (configLoad (some (serializeConfig c)) freshDefault).1.hostname = c.hostname := by
  have h : deserializeConfig (serializeConfig c) = some c := by
    simp [serializeConfig, deserializeConfig, jsonLookup]
  exact ⟨h, by simp [configLoad, h], by simp [configLoad, h]⟩

/-- Witness for C9 at a concrete config. -/
theorem configRoundTrip_witness :
    Config.WellFormed { protocol_id := 1217796341, hostname := "1234.client.alvr" } ∧
    configLoad (some (serializeConfig { protocol_id := 1217796341, hostname := "1234.client.alvr" }))
        { protocol_id := 1217796341, hostname := "9999.client.alvr" } =
      ({ protocol_id := 1217796341, hostname := "1234.client.alvr" }, false) :=
  ⟨by norm_num [Config.WellFormed],
   (configRoundTrip_spec { protocol_id := 1217796341, hostname := "1234.client.alvr" }
      (by norm_num [Config.WellFormed])
      { protocol_id := 1217796341, hostname := "9999.client.alvr" }).2.1⟩

/-- C10: the preferred refresh rate advertised in the `HeadsetInfoPacket`
built by `alvr_initialize` is the last element of the caller's
`refresh_rates` array, or 60 when the array is empty; with the descending
list `[90, 72, 60]` it is 60 even though 90 is advertised, so it is not the
largest advertised rate. -/
theorem alvrInitializePreferredRefreshRate_spec (recW recH : ℕ) (rates : List ℚ)
    (micRate : ℕ) (version : String) :
    (∀ (h : rates ≠ []),
      (alvrInitializeHeadsetInfo recW recH rates micRate version).preferred_refresh_rate =
        rates.getLast h) ∧
    (rates = [] →
      (alvrInitializeHeadsetInfo recW recH rates micRate version).preferred_refresh_rate = 60) ∧
    (alvrInitializeHeadsetInfo 1832 1920 [90, 72, 60] 48000 "18.2.3").preferred_refresh_rate = 60 ∧
    (60 : ℚ) < 90 ∧ (90 : ℚ) ∈ [(90 : ℚ), 72, 60] := by
  refine ⟨?_, ?_, ?_, by norm_num, by simp⟩
  · intro h
    simp [alvrInitializeHeadsetInfo, List.getLast?_eq_getLast rates h]
  · intro h
    subst h
    rfl
  · simp [alvrInitializeHeadsetInfo, List.getLast?]

/-- Witness for C10 at the concrete descending list. -/
theorem alvrInitializePreferredRefreshRate_witness :
    ([(90 : ℚ), 72, 60] ≠ []) ∧
      (alvrInitializeHeadsetInfo 1832 1920 [90, 72, 60] 48000 "18.2.3").preferred_refresh_rate = 60 := by
  refine ⟨by simp, ?_⟩
  have h := (alvrInitializePreferredRefreshRate_spec 1832 1920 [90, 72, 60] 48000 "18.2.3").1
    (by simp)
  simpa using h

/-- C1: at the config-comparison step of `client_handshake`, a changed
`OpenvrConfig` is persisted, `Restarting` is sent, the driver restart is
triggered and the handshake suspends (never returning a `ConnectionInfo`);
an unchanged config returns the `ConnectionInfo` with nothing persisted and
no `Restarting` sent. -/
theorem configCompareStep_spec (sessionConfig newOpenvrConfig : OpenvrConfig)
    (info : ConnectionInfo) :
    (sessionConfig ≠ newOpenvrConfig →
      (configCompareStep sessionConfig newOpenvrConfig info).1.persisted = newOpenvrConfig ∧
      (configCompareStep sessionConfig newOpenvrConfig info).1.sent =
        [ServerControlPacket.Restarting] ∧
      (configCompareStep sessionConfig newOpenvrConfig info).1.restartTriggered = true ∧
      (configCompareStep sessionConfig newOpenvrConfig info).2 = HandshakeOutcome.suspended ∧
      ∀ i, (configCompareStep sessionConfig newOpenvrConfig info).2 ≠
        HandshakeOutcome.returned i) ∧
    (sessionConfig = newOpenvrConfig →
      (configCompareStep sessionConfig newOpenvrConfig info).2 =
        HandshakeOutcome.returned info ∧
      (configCompareStep sessionConfig newOpenvrConfig info).1.persisted = sessionConfig ∧
      (configCompareStep sessionConfig newOpenvrConfig info).1.sent = [] ∧
      (configCompareStep sessionConfig newOpenvrConfig info).1.restartTriggered = false) := by
  constructor
  · intro h
    simp [configCompareStep, h]
  · intro h
    subst h
    simp [configCompareStep]

/-- Witness for C1: a bitrate change restarts and suspends, identical configs
return the `ConnectionInfo`. -/
theorem configCompareStep_witness :
    (sampleOpenvrConfig ≠ sampleOpenvrConfigChanged ∧
      (configCompareStep sampleOpenvrConfig sampleOpenvrConfigChanged sampleConnectionInfo).2 =
        HandshakeOutcome.suspended) ∧
    (sampleOpenvrConfig = sampleOpenvrConfig ∧
      (configCompareStep sampleOpenvrConfig sampleOpenvrConfig sampleConnectionInfo).2 =
        HandshakeOutcome.returned sampleConnectionInfo) :=
  ⟨⟨by decide,
    ((configCompareStep_spec sampleOpenvrConfig sampleOpenvrConfigChanged
        sampleConnectionInfo).1 (by decide)).2.2.2.1⟩,
   ⟨rfl,
    ((configCompareStep_spec sampleOpenvrConfig sampleOpenvrConfig
        sampleConnectionInfo).2 rfl).1⟩⟩

theorem clientListGet_append_of_none (list : ClientList) (hostname : String)
    (d : ClientConnectionDesc) (hnone : clientListGet list hostname = none) :
    clientListGet (list ++ [(hostname, d)]) hostname = some d := by
  induction list with
  | nil => simp [clientListGet]
  | cons kv rest ih =>
    obtain ⟨k, v⟩ := kv
    by_cases hk : k = hostname
    · simp [clientListGet, hk] at hnone
    · simp only [clientListGet, hk, if_false] at hnone
      simpa only [List.cons_append, clientListGet, hk, if_false] using ih hnone

/-- C5: every received broadcast adds the sending hostname to the registry
with `trusted = false` if it is missing (leaving the registry unchanged
otherwise), and discovery resolves to a `ClientId` for it exactly when the
registry entry is trusted or `auto_trust_clients` is set. -/
theorem clientDiscoveryStep_spec (list : ClientList) (auto_trust_clients : Bool)
    (packet : HandshakePacket) (ip : ℕ) :
    (clientListGet list packet.hostname = none →
      clientListGet (clientDiscoveryStep list auto_trust_clients packet ip).1 packet.hostname =
        some { display_name := packet.device_name, trusted := false, manual_ips := [] }) ∧
    (∀ d, clientListGet list packet.hostname = some d →
      (clientDiscoveryStep list auto_trust_clients packet ip).1 = list) ∧
    ((clientDiscoveryStep list auto_trust_clients packet ip).2.isSome = true ↔
      ∃ d, clientListGet (clientDiscoveryStep list auto_trust_clients packet ip).1
             packet.hostname = some d ∧ (d.trusted || auto_trust_clients) = true) ∧
    (∀ id, (clientDiscoveryStep list auto_trust_clients packet ip).2 = some id →
      id.hostname = packet.hostname ∧ id.ip = ip) := by
  cases hget : clientListGet list packet.hostname with
  | none =>
    have hadd : updateClientListAddIfMissing list packet.hostname packet.device_name =
        list ++ [(packet.hostname,
          { display_name := packet.device_name, trusted := false, manual_ips := [] })] := by
      simp [updateClientListAddIfMissing, hget]
    have hlook := clientListGet_append_of_none list packet.hostname
      { display_name := packet.device_name, trusted := false, manual_ips := [] } hget
    refine ⟨?_, ?_, ?_, ?_⟩
    · intro _
      simp only [clientDiscoveryStep, hadd]
      exact hlook
    · intro d hd
      simp at hd
    · simp only [clientDiscoveryStep, hadd, hlook]
      cases auto_trust_clients <;> simp
    · intro id hid
      simp only [clientDiscoveryStep, hadd, hlook] at hid
      cases auto_trust_clients with
      | false => simp at hid
      | true =>
        simp only [Bool.or_true, if_true] at hid
        cases hid
        exact ⟨rfl, rfl⟩
  | some d =>
    have hadd : updateClientListAddIfMissing list packet.hostname packet.device_name = list := by
      simp [updateClientListAddIfMissing, hget]
    refine ⟨?_, ?_, ?_, ?_⟩
    · intro h
      simp at h
    · intro d' _
      simp [clientDiscoveryStep, hadd]
    · simp only [clientDiscoveryStep, hadd, hget]
      by_cases hacc : (d.trusted || auto_trust_clients) = true
      · simp [hacc]
        simpa using hacc
      · simp [hacc]
        simpa using hacc
    · intro id hid
      simp only [clientDiscoveryStep, hadd, hget] at hid
      by_cases hacc : (d.trusted || auto_trust_clients) = true
      · rw [if_pos hacc] at hid
        cases hid
        exact ⟨rfl, rfl⟩
      · rw [if_neg hacc] at hid
        exact absurd hid (by simp)

/-- Witness for C5: an empty registry gains the broadcasting hostname
untrusted, and with `auto_trust_clients = false` discovery does not resolve. -/
theorem clientDiscoveryStep_witness :
    clientListGet ([] : ClientList) "1234.client.alvr" = none ∧
      clientListGet
        (clientDiscoveryStep [] false
          { hostname := "1234.client.alvr", device_name := "Oculus Quest 2" } 3232235777).1
        "1234.client.alvr" =
        some { display_name := "Oculus Quest 2", trusted := false, manual_ips := [] } :=
  ⟨rfl,
   (clientDiscoveryStep_spec [] false
      { hostname := "1234.client.alvr", device_name := "Oculus Quest 2" } 3232235777).1 rfl⟩

/-- C6 counterexample: the control loop renders an unknown button id with
`format!("Unknown (ID: {:#16x})", path_id)` — `0x`-prefixed, space-padded to
a 16-character field, inside an `ID: ` label — not as the zero-padded
`Unknown (0x{:016x})` the spec states; at `path_id = 0` the two renderings
differ. -/
theorem buttonUnknownRender_counterexample :
    buttonLogPath [] 0 ≠ specClaimedUnknownRender 0 ∧
    buttonLogPath [] 0 = "Unknown (ID:              0x0)" ∧
    specClaimedUnknownRender 0 = "Unknown (0x0000000000000000)" :=
  ⟨by decide, by decide, by decide⟩

/-- C6 (amended): with button-press logging enabled, the control loop emits a
button event whose path is the mapped path string when `path_id` is known and
otherwise is `"Unknown (ID: "` followed by the id as `{:#16x}` (`0x`-prefixed
lowercase hex, right-aligned in a 16-character space-padded field) and `")"`;
logging disabled emits nothing; in both cases the value is pushed to the
driver unchanged. -/
theorem controlLoopButtonStep_spec (buttonPathFromId : List (ℕ × String))
    (log_button_presses : Bool) (path_id : ℕ) (value : ButtonValue) :
    (controlLoopButtonStep buttonPathFromId log_button_presses path_id value).driverPush =
      (path_id, value) ∧
    (log_button_presses = true →
      (controlLoopButtonStep buttonPathFromId log_button_presses path_id value).loggedEvent =
        some { path := buttonLogPath buttonPathFromId path_id, value := value }) ∧
    (log_button_presses = false →
      (controlLoopButtonStep buttonPathFromId log_button_presses path_id value).loggedEvent =
        none) ∧
    (∀ s, buttonPathFromId.lookup path_id = some s →
      buttonLogPath buttonPathFromId path_id = s) ∧
    (buttonPathFromId.lookup path_id = none →
      buttonLogPath buttonPathFromId path_id =
        "Unknown (ID: " ++ rustFormatAltHex16 path_id ++ ")") ∧
    buttonLogPath [(10, "/user/hand/left/input/trigger/click")] 10 =
      "/user/hand/left/input/trigger/click" ∧
    buttonLogPath [] 0 = "Unknown (ID:              0x0)" := by
  refine ⟨rfl, ?_, ?_, ?_, ?_, by decide, by decide⟩
  · intro h
    simp [controlLoopButtonStep, h]
  · intro h
    simp [controlLoopButtonStep, h]
  · intro s hs
    simp [buttonLogPath, hs]
  · intro hs
    simp [buttonLogPath, hs]

/-- Witness for C6 (amended) at a known and an unknown id. -/
theorem controlLoopButtonStep_witness :
    ((true : Bool) = true ∧
      (controlLoopButtonStep [(10, "/user/hand/left/input/trigger/click")] true 10
          (ButtonValue.Binary true)).loggedEvent =
        some { path := buttonLogPath [(10, "/user/hand/left/input/trigger/click")] 10
               value := ButtonValue.Binary true }) ∧
    ([] : List (ℕ × String)).lookup 0 = none ∧
      buttonLogPath [] 0 = "Unknown (ID: " ++ rustFormatAltHex16 0 ++ ")" :=
  ⟨⟨rfl,
    (controlLoopButtonStep_spec [(10, "/user/hand/left/input/trigger/click")] true 10
        (ButtonValue.Binary true)).2.1 rfl⟩,
   ⟨rfl,
    (controlLoopButtonStep_spec [] true 0 (ButtonValue.Binary true)).2.2.2.2.1 rfl⟩⟩

/-- C7 counterexample: with game audio enabled, a failure of
`AudioDevice::new` inside `client_handshake` propagates through `?`, so the
handshake returns an error and `connection_pipeline` returns before any
streaming starts — the device-open failure is fatal to that connection
attempt, contradicting "never fatal to the connection pipeline". -/
theorem gameAudioHandshakeAbort_counterexample :
    handshakeGameAudioSampleRate true false (Except.error "game audio device missing")
        (Except.ok ()) (Except.ok 48000) = Except.error "game audio device missing" ∧
    pipelineHandshakeResult
        ((handshakeGameAudioSampleRate true false (Except.error "game audio device missing")
            (Except.ok ()) (Except.ok 48000)).bind
          (fun _ => Except.ok sampleConnectionInfo)) =
      PipelineOutcome.abortedBeforeStreaming :=
  ⟨rfl, rfl⟩

/-- C7 (amended): during streaming, `game_audio_loop` retries a failed device
open internally after a pause and never exits with `Ok` or `Err` (no body
iteration exits, so no finite schedule of device/record outcomes terminates
it); at handshake time, however, a game-audio device-open failure propagates
out of `client_handshake` as an error. -/
theorem gameAudioLoop_spec :
    (∀ schedule, gameAudioLoopRun schedule = none) ∧
    (∀ deviceOpen recordAudioResult,
      gameAudioLoopBody deviceOpen recordAudioResult = LoopBodyResult.continueLoop) ∧
    (∀ (microphoneEnabled : Bool) (micDeviceOpen : Except String Unit)
        (inputSampleRate : Except String ℕ) (e : String),
      handshakeGameAudioSampleRate true microphoneEnabled (Except.error e) micDeviceOpen
        inputSampleRate = Except.error e) := by
  have hbody : ∀ deviceOpen recordAudioResult,
      gameAudioLoopBody deviceOpen recordAudioResult = LoopBodyResult.continueLoop := by
    intro deviceOpen recordAudioResult
    cases deviceOpen with
    | error e => rfl
    | ok u => cases recordAudioResult <;> rfl
  refine ⟨?_, hbody, ?_⟩
  · intro schedule
    induction schedule with
    | nil => rfl
    | cons step rest ih =>
      obtain ⟨deviceOpen, recordResult⟩ := step
      simp only [gameAudioLoopRun, hbody]
      exact ih
  · intro microphoneEnabled micDeviceOpen inputSampleRate e
    simp [handshakeGameAudioSampleRate]

theorem negotiateFpsAux_characterization (preferred : ℚ) (l : List ℚ) :
    ∀ best : ℚ,
      (negotiateFpsAux preferred best (some |best - preferred|) l = best ∨
        negotiateFpsAux preferred best (some |best - preferred|) l ∈ l) ∧
      |negotiateFpsAux preferred best (some |best - preferred|) l - preferred| ≤
        |best - preferred| ∧
      (∀ r ∈ l,
        |negotiateFpsAux preferred best (some |best - preferred|) l - preferred| ≤
          |r - preferred|) ∧
      (|best - preferred| ≤
          |negotiateFpsAux preferred best (some |best - preferred|) l - preferred| →
        negotiateFpsAux preferred best (some |best - preferred|) l = best) ∧
      (|negotiateFpsAux preferred best (some |best - preferred|) l - preferred| <
          |best - preferred| →
        l.find? (fun r => decide (|r - preferred| =
            |negotiateFpsAux preferred best (some |best - preferred|) l - preferred|)) =
          some (negotiateFpsAux preferred best (some |best - preferred|) l)) := by
  induction l with
  | nil =>
    intro best
    simp [negotiateFpsAux]
  | cons rr rest ih =>
    intro best
    by_cases h : |rr - preferred| < |best - preferred|
    · have hunfold : negotiateFpsAux preferred best (some |best - preferred|) (rr :: rest) =
          negotiateFpsAux preferred rr (some |rr - preferred|) rest := by
        simp [negotiateFpsAux, h]
      obtain ⟨h1, h2, h3, h4, h5⟩ := ih rr
      rw [hunfold]
      set c := negotiateFpsAux preferred rr (some |rr - preferred|) rest
      refine ⟨?_, ?_, ?_, ?_, ?_⟩
      · rcases h1 with h1 | h1
        · exact Or.inr (by rw [h1]; exact List.mem_cons_self rr rest)
        · exact Or.inr (List.mem_cons_of_mem rr h1)
      · exact le_trans h2 (le_of_lt h)
      · intro r hr
        rcases List.mem_cons.mp hr with rfl | hr
        · exact h2
        · exact h3 r hr
      · intro hge
        exact absurd hge (not_le.mpr (lt_of_le_of_lt h2 h))
      · intro _
        by_cases heq : |rr - preferred| = |c - preferred|
        · have hcr : c = rr := h4 heq.le
          rw [List.find?_cons_of_pos _ (by simp [heq])]
          rw [hcr]
        · have hlt : |c - preferred| < |rr - preferred| :=
            lt_of_le_of_ne h2 (fun hh => heq hh.symm)
          rw [List.find?_cons_of_neg _ (by simp [heq])]
          exact h5 hlt
    · have hke : |best - preferred| ≤ |rr - preferred| := not_lt.mp h
      have hunfold : negotiateFpsAux preferred best (some |best - preferred|) (rr :: rest) =
          negotiateFpsAux preferred best (some |best - preferred|) rest := by
        simp [negotiateFpsAux, h]
      obtain ⟨h1, h2, h3, h4, h5⟩ := ih best
      rw [hunfold]
      set c := negotiateFpsAux preferred best (some |best - preferred|) rest
      refine ⟨?_, ?_, ?_, ?_, ?_⟩
      · rcases h1 with h1 | h1
        · exact Or.inl h1
        · exact Or.inr (List.mem_cons_of_mem rr h1)
      · exact h2
      · intro r hr
        rcases List.mem_cons.mp hr with rfl | hr
        · exact le_trans h2 hke
        · exact h3 r hr
      · exact h4
      · intro hlt
        have hne : ¬(|rr - preferred| = |c - preferred|) := by
          intro hh
          rw [hh] at hke
          exact absurd hlt (not_lt.mpr hke)
        rw [List.find?_cons_of_neg _ (by simp [hne])]
        exact h5 hlt

/-- C2: for every non-empty advertised refresh-rate list, the negotiated fps
is an element of the list minimizing the distance to the preferred fps, ties
resolved to the first occurrence (it is the first element whose distance
equals the achieved minimum), and the warning fires exactly when the
preferred fps is not contained in the list. -/
theorem negotiateFps_spec (rates : List ℚ) (preferredFps : ℚ) (hne : rates ≠ []) :
    negotiateFps rates preferredFps ∈ rates ∧
    (∀ r ∈ rates,
      |negotiateFps rates preferredFps - preferredFps| ≤ |r - preferredFps|) ∧
    rates.find? (fun r => decide (|r - preferredFps| =
        |negotiateFps rates preferredFps - preferredFps|)) =
      some (negotiateFps rates preferredFps) ∧
    (fpsWarningEmitted rates preferredFps = true ↔ preferredFps ∉ rates) := by
  obtain ⟨rr, rest, rfl⟩ := List.exists_cons_of_ne_nil hne
  have hwarn : fpsWarningEmitted (rr :: rest) preferredFps = true ↔
      preferredFps ∉ rr :: rest := by
    simp [fpsWarningEmitted]
  have hunfold : negotiateFps (rr :: rest) preferredFps =
      negotiateFpsAux preferredFps rr (some |rr - preferredFps|) rest := by
    simp [negotiateFps, negotiateFpsAux]
  obtain ⟨h1, h2, h3, h4, h5⟩ := negotiateFpsAux_characterization preferredFps rest rr
  rw [hunfold]
  set c := negotiateFpsAux preferredFps rr (some |rr - preferredFps|) rest
  refine ⟨?_, ?_, ?_, hwarn⟩
  · rcases h1 with h1 | h1
    · rw [h1]; exact List.mem_cons_self rr rest
    · exact List.mem_cons_of_mem rr h1
  · intro r hr
    rcases List.mem_cons.mp hr with rfl | hr
    · exact h2
    · exact h3 r hr
  · by_cases heq : |rr - preferredFps| = |c - preferredFps|
    · have hcr : c = rr := h4 heq.le
      rw [List.find?_cons_of_pos _ (by simp [heq])]
      rw [hcr]
    · have hlt : |c - preferredFps| < |rr - preferredFps| :=
        lt_of_le_of_ne h2 (fun hh => heq hh.symm)
      rw [List.find?_cons_of_neg _ (by simp [heq])]
      exact h5 hlt

/-- Witness for C2 at the spec's negotiation scenario `[60, 72, 80, 90]`,
preferred 75. -/
theorem negotiateFps_witness :
    ([(60 : ℚ), 72, 80, 90] ≠ []) ∧
      (negotiateFps [60, 72, 80, 90] 75 ∈ [(60 : ℚ), 72, 80, 90] ∧
        (∀ r ∈ [(60 : ℚ), 72, 80, 90],
          |negotiateFps [60, 72, 80, 90] 75 - 75| ≤ |r - 75|) ∧
        List.find? (fun r => decide (|r - 75| = |negotiateFps [60, 72, 80, 90] 75 - 75|))
            [(60 : ℚ), 72, 80, 90] =
          some (negotiateFps [60, 72, 80, 90] 75) ∧
        (fpsWarningEmitted [60, 72, 80, 90] 75 = true ↔
          (75 : ℚ) ∉ [(60 : ℚ), 72, 80, 90])) :=
  ⟨by simp, negotiateFps_spec [60, 72, 80, 90] 75 (by simp)⟩

end ALVR
